import Mathlib

/-
Verification development for the Afghanistan text-adventure game engine
(src/game.py).  The Python source is shallowly embedded below: every
probability draw of the shared random source is modelled as one `Nat`
consumed from an explicit `rng : List Nat` (a draw `d` makes `roll pct`
succeed exactly when `d < pct`, matching `random.random() < pct/100` for
the integer percentages the program uses), and every validated player
selection is one `Nat` consumed from an explicit `acts : List Nat`
(reduced modulo the number of options, matching `choose`, which never
returns an out-of-range index).  Narration (`slow_print`) has no state
effect and is dropped; everything that reads or writes `Player` state or
consumes entropy is kept, in the exact order of the source.

The `Player` record carries two ghost observation counters, `heal_fires`
and `sniper_fires`, absent from the source: they are incremented exactly
when the Medic mid-fight heal branch and the Sniper guaranteed-shot
branch execute, are read by no game code, and exist only so that
"this branch fires at most once per run" is a statement about the final
state.
-/

namespace Game

inductive Role
  | Soldier
  | Sniper
  | Medic
  | Engineer
  | IntelligenceOfficer
deriving DecidableEq

inductive Item
  | StandardRifle
  | CombatKnife
  | SniperRifle
  | Camouflage
  | Pistol
  | MedicalKit
  | Toolkit
  | SilencedPistol
  | EncryptedRadio
  | MedPack
  | Ammo
  | AssaultRifle
  | HandfulOfAmmo
  | IntelDocuments
  | LootedSupplies
  | IEDComponents
  | Rations
deriving DecidableEq

/-- ROLES[role]["inventory"] from the source. -/
def startingInventory : Role → List Item
  | .Soldier => [.StandardRifle, .CombatKnife]
  | .Sniper => [.SniperRifle, .Camouflage]
  | .Medic => [.Pistol, .MedicalKit]
  | .Engineer => [.Pistol, .Toolkit]
  | .IntelligenceOfficer => [.SilencedPistol, .EncryptedRadio]

/-- ROLES[role]["accuracy_bonus"] from the source. -/
def roleAccuracyBonus : Role → Int
  | .Soldier => 0
  | .Sniper => 15
  | .Medic => -5
  | .Engineer => -2
  | .IntelligenceOfficer => -1

structure Player where
  role : Role
  hp : Int
  inventory : List Item
  accuracy_bonus : Int
  mission_heals : Nat
  sniper_special_used : Bool
  alive : Bool
  missions_completed : Nat
  heal_fires : Nat
  sniper_fires : Nat
deriving DecidableEq

/-- Player.__init__ from the source (ghost counters start at 0). -/
def Player.init (role : Role) : Player where
  role := role
  hp := 3
  inventory := startingInventory role
  accuracy_bonus := roleAccuracyBonus role
  mission_heals := if role = .Medic then 1 else 0
  sniper_special_used := false
  alive := true
  missions_completed := 0
  heal_fires := 0
  sniper_fires := 0

/-- Player.take_damage: subtract, then set alive to False when hp <= 0. -/
def Player.take_damage (p : Player) (amount : Int) : Player :=
  if p.hp - amount ≤ 0 then { p with hp := p.hp - amount, alive := false }
  else { p with hp := p.hp - amount }

/-- Player.heal: hp = min(3, hp + amount). -/
def Player.heal (p : Player) (amount : Int) : Player :=
  { p with hp := min 3 (p.hp + amount) }

/-- roll(pct): one draw d (conceptually uniform on [0,100)) succeeds iff d < pct. -/
def roll (pct : Int) (d : Nat) : Bool := decide ((d : Int) < pct)

/-- Final HP as reported by summary(): max(0, player.hp). -/
def summary_hp (p : Player) : Int := max 0 p.hp

/-- base_hit_chance of the combat shooting logic, after the per-action
aim adjustment (center +5, left -5, right -2, anything else unadjusted). -/
def base_hit_chance (p : Player) (difficulty : Int) (action : Nat) : Int :=
  let b := 50 + p.accuracy_bonus - difficulty * 5
  if action = 1 then b + 5
  else if action = 0 then b - 5
  else if action = 2 then b - 2
  else b

/-- The clamp max(5, min(95, c)) applied to the shooting hit chance. -/
def clampChance (c : Int) : Int := max 5 (min 95 c)

/-- Result of one body of the combat while-loop: updated player, updated
enemy hp, remaining rng, and `some b` when the source executes
`return b` from inside the loop (flee success / mid-fight headshot). -/
structure RoundResult where
  p : Player
  enemy_hp : Int
  rng : List Nat
  early : Option Bool
deriving DecidableEq

/-- The counterattack check after a *successful* special/item action:
`if enemy_hp > 0 and roll(40 + difficulty * 10): take_damage(1)`. -/
def usedCounter (p : Player) (difficulty enemy_hp : Int) (rng : List Nat) : RoundResult :=
  if enemy_hp > 0 then
    if roll (40 + difficulty * 10) (rng.headD 0) then
      ⟨p.take_damage 1, enemy_hp, rng.tail, none⟩
    else ⟨p, enemy_hp, rng.tail, none⟩
  else ⟨p, enemy_hp, rng, none⟩

/-- The enemy counterattack block at the end of a shooting round:
Soldier 20% dodge, else enemy accuracy 40 + difficulty*15, on hit a 3%
instant-death roll, otherwise 1 damage. -/
def enemyCounter (p : Player) (difficulty enemy_hp : Int) (rng : List Nat) : RoundResult :=
  if enemy_hp > 0 then
    if p.role = .Soldier ∧ roll 20 (rng.headD 0) then
      ⟨p, enemy_hp, rng.tail, none⟩
    else
      let rng1 := if p.role = .Soldier then rng.tail else rng
      if roll (40 + difficulty * 15) (rng1.headD 0) then
        if roll 3 (rng1.tail.headD 0) then
          ⟨{ p with alive := false }, enemy_hp, rng1.tail.tail, some false⟩
        else ⟨p.take_damage 1, enemy_hp, rng1.tail.tail, none⟩
      else ⟨p, enemy_hp, rng1.tail, none⟩
  else ⟨p, enemy_hp, rng, none⟩

/-- The shooting block of a combat round (clamped hit roll, Assault
Rifle 40% double damage on hit, then the enemy counterattack block). -/
def shootingPhase (p : Player) (difficulty enemy_hp : Int) (action : Nat)
    (rng : List Nat) : RoundResult :=
  if roll (clampChance (base_hit_chance p difficulty action)) (rng.headD 0) then
    if Item.AssaultRifle ∈ p.inventory then
      if roll 40 (rng.tail.headD 0) then
        enemyCounter p difficulty (enemy_hp - 2) rng.tail.tail
      else enemyCounter p difficulty (enemy_hp - 1) rng.tail.tail
    else enemyCounter p difficulty (enemy_hp - 1) rng.tail
  else enemyCounter p difficulty enemy_hp rng.tail

/-- One iteration of the combat while-loop, given the already-validated
action index (0..5).  Mirrors the source order exactly: flee (action 4),
special/item (action 5, falling through to the shooting block when no
option applied), take cover (action 3), then the shooting block. -/
def combatRound (p : Player) (difficulty enemy_hp : Int) (action : Nat)
    (rng : List Nat) : RoundResult :=
  if action = 4 then
    if roll (30 - difficulty * 5) (rng.headD 0) then ⟨p, enemy_hp, rng.tail, some true⟩
    else if roll (10 + difficulty * 10) (rng.tail.headD 0) then
      ⟨p.take_damage 1, enemy_hp, rng.tail.tail, none⟩
    else ⟨p, enemy_hp, rng.tail.tail, none⟩
  else if action = 5 then
    if p.role = .Medic ∧ p.mission_heals > 0 then
      usedCounter
        { (p.heal 1) with
          mission_heals := p.mission_heals - 1
          heal_fires := p.heal_fires + 1 }
        difficulty enemy_hp rng
    else if p.role = .Sniper ∧ p.sniper_special_used = false then
      usedCounter
        { p with
          sniper_special_used := true
          sniper_fires := p.sniper_fires + 1 }
        difficulty 0 rng
    else if Item.MedPack ∈ p.inventory then
      usedCounter { (p.heal 1) with
        inventory := (p.heal 1).inventory.erase Item.MedPack } difficulty enemy_hp rng
    else if Item.AssaultRifle ∈ p.inventory then
      if roll 60 (rng.headD 0) then usedCounter p difficulty 0 rng.tail
      else shootingPhase p difficulty enemy_hp action rng.tail
    else shootingPhase p difficulty enemy_hp action rng
  else if action = 3 then
    let e2 := if roll (20 + difficulty * 10) (rng.headD 0) then enemy_hp - 1 else enemy_hp
    if roll (30 + difficulty * 20) (rng.tail.headD 0) then
      ⟨p.take_damage 1, e2, rng.tail.tail, none⟩
    else ⟨p, e2, rng.tail.tail, none⟩
  else shootingPhase p difficulty enemy_hp action rng

inductive CombatExit
  | fled
  | earlyDeath
  | loopDone
  | fuelOut
deriving DecidableEq

structure LoopResult where
  p : Player
  enemy_hp : Int
  acts : List Nat
  rng : List Nat
  exit : CombatExit
deriving DecidableEq

/-- The combat while-loop (`while enemy_hp > 0 and player.alive`),
with explicit fuel since the source loop has no termination bound. -/
def combatLoop (difficulty : Int) : Nat → Player → Int → List Nat → List Nat → LoopResult
  | 0, p, enemy_hp, acts, rng => ⟨p, enemy_hp, acts, rng, .fuelOut⟩
  | Nat.succ fuel, p, enemy_hp, acts, rng =>
    if enemy_hp > 0 ∧ p.alive = true then
      match combatRound p difficulty enemy_hp (acts.headD 0 % 6) rng with
      | ⟨q, e2, rng2, some true⟩ => ⟨q, e2, acts.tail, rng2, .fled⟩
      | ⟨q, e2, rng2, some false⟩ => ⟨q, e2, acts.tail, rng2, .earlyDeath⟩
      | ⟨q, e2, rng2, none⟩ => combatLoop difficulty fuel q e2 acts.tail rng2
    else ⟨p, enemy_hp, acts, rng, .loopDone⟩

/-- Result type shared by combat and the encounter resolvers: updated
player, remaining choice stream, remaining rng, boolean result. -/
structure GRes where
  p : Player
  acts : List Nat
  rng : List Nat
  ok : Bool
deriving DecidableEq

/-- The fixed 5-item post-victory loot table of combat_encounter. -/
def LOOT_TABLE : List Item := [.Ammo, .MedPack, .IntelDocuments, .AssaultRifle, .Rations]

/-- combat_encounter: 10% instant-death pre-check, enemy hp initialized
to difficulty, the round loop, and the post-victory loot roll.  Flee
success returns True without the loot roll; fuel exhaustion (an artifact
of the embedding) returns the alive flag of the player with no loot. -/
def combat_encounter (p : Player) (difficulty : Int) (fuel : Nat)
    (acts rng : List Nat) : GRes :=
  if roll 10 (rng.headD 0) then ⟨{ p with alive := false }, acts, rng.tail, false⟩
  else
    match combatLoop difficulty fuel p difficulty acts rng.tail with
    | ⟨q, _, acts2, rng2, .fled⟩ => ⟨q, acts2, rng2, true⟩
    | ⟨q, _, acts2, rng2, .earlyDeath⟩ => ⟨q, acts2, rng2, false⟩
    | ⟨q, _, acts2, rng2, .fuelOut⟩ => ⟨q, acts2, rng2, q.alive⟩
    | ⟨q, _, acts2, rng2, .loopDone⟩ =>
      if q.alive = true then
        if roll (50 + difficulty * 10) (rng2.headD 0) then
          ⟨{ q with inventory := q.inventory ++
              [LOOT_TABLE.getD (rng2.tail.headD 0 % 5) .Ammo] },
            acts2, rng2.tail.tail, true⟩
        else ⟨q, acts2, rng2.tail, true⟩
      else ⟨q, acts2, rng2, false⟩

/-- village_checkpoint: diplomacy (Intel role or 65%), fields (40%
ambush), or force entry at difficulty 3. -/
def village_checkpoint (p : Player) (fuel : Nat) (acts rng : List Nat) : GRes :=
  let c := acts.headD 0 % 3
  let acts1 := acts.tail
  if c = 0 then
    if p.role = .IntelligenceOfficer then
      ⟨{ p with inventory := p.inventory ++ [.MedPack] }, acts1, rng, true⟩
    else if roll 65 (rng.headD 0) then
      ⟨{ p with inventory := p.inventory ++ [.MedPack] }, acts1, rng.tail, true⟩
    else combat_encounter p 1 fuel acts1 rng.tail
  else if c = 1 then
    if roll 40 (rng.headD 0) then combat_encounter p 2 fuel acts1 rng.tail
    else ⟨{ p with inventory := p.inventory ++ [.Ammo] }, acts1, rng.tail, true⟩
  else combat_encounter p 3 fuel acts1 rng

/-- mountain_pass, exactly as the source executes: on option 0 the
`return combat_encounter(player, difficulty=2)` of the sniper-fire
branch sits inside a comment block pasted into the function (source
lines 359-362), so after the 30% roll (which only selects narration)
the code always loots Rations and returns True. -/
def mountain_pass (p : Player) (fuel : Nat) (acts rng : List Nat) : GRes :=
  let c := acts.headD 0 % 3
  let acts1 := acts.tail
  if c = 0 then
    if p.role = .Sniper ∧ roll 50 (rng.headD 0) then ⟨p, acts1, rng.tail, true⟩
    else
      let rng1 := if p.role = .Sniper then rng.tail else rng
      ⟨{ p with inventory := p.inventory ++ [.Rations] }, acts1, rng1.tail, true⟩
  else if c = 1 then
    if Item.EncryptedRadio ∈ p.inventory ∨ p.role = .IntelligenceOfficer then
      ⟨p, acts1, rng, true⟩
    else combat_encounter p 2 fuel acts1 rng
  else
    if p.role = .Engineer ∧ roll 70 (rng.headD 0) then
      ⟨{ p with inventory := p.inventory ++ [.IEDComponents] }, acts1, rng.tail, true⟩
    else
      let rng1 := if p.role = .Engineer then rng.tail else rng
      if roll 40 (rng1.headD 0) then
        let p1 := p.take_damage 1
        ⟨p1, acts1, rng1.tail, p1.alive⟩
      else ⟨p, acts1, rng1.tail, true⟩

/-- abandoned_base: 50% weapons cache else combat(3); guaranteed
perimeter loot; or camp leading to combat(2). -/
def abandoned_base (p : Player) (fuel : Nat) (acts rng : List Nat) : GRes :=
  let c := acts.headD 0 % 3
  let acts1 := acts.tail
  if c = 0 then
    if roll 50 (rng.headD 0) then
      ⟨{ p with inventory := p.inventory ++ [.AssaultRifle] }, acts1, rng.tail, true⟩
    else combat_encounter p 3 fuel acts1 rng.tail
  else if c = 1 then
    ⟨{ p with inventory := p.inventory ++ [.HandfulOfAmmo] }, acts1, rng, true⟩
  else combat_encounter p 2 fuel acts1 rng

/-- night_raze: frontal assault combat(3); stealth (Sniper/Intel role or
55%) else combat(3); or wait (50% safe else combat(2)). -/
def night_raze (p : Player) (fuel : Nat) (acts rng : List Nat) : GRes :=
  let c := acts.headD 0 % 3
  let acts1 := acts.tail
  if c = 0 then combat_encounter p 3 fuel acts1 rng
  else if c = 1 then
    if p.role = .Sniper ∨ p.role = .IntelligenceOfficer then
      ⟨{ p with inventory := p.inventory ++ [.IntelDocuments] }, acts1, rng, true⟩
    else if roll 55 (rng.headD 0) then
      ⟨{ p with inventory := p.inventory ++ [.IntelDocuments] }, acts1, rng.tail, true⟩
    else combat_encounter p 3 fuel acts1 rng.tail
  else
    if roll 50 (rng.headD 0) then ⟨p, acts1, rng.tail, true⟩
    else combat_encounter p 2 fuel acts1 rng.tail

/-- convoy_ambush: defend combat(3); flank (Soldier 60% clean, else one
damage either way, both branches consuming the 40% graze roll); or
airstrike (radio/Intel role safe, else combat(2)). -/
def convoy_ambush (p : Player) (fuel : Nat) (acts rng : List Nat) : GRes :=
  let c := acts.headD 0 % 3
  let acts1 := acts.tail
  if c = 0 then combat_encounter p 3 fuel acts1 rng
  else if c = 1 then
    if p.role = .Soldier ∧ roll 60 (rng.headD 0) then
      ⟨{ p with inventory := p.inventory ++ [.LootedSupplies] }, acts1, rng.tail, true⟩
    else
      let rng1 := if p.role = .Soldier then rng.tail else rng
      if roll 40 (rng1.headD 0) then
        let p1 := p.take_damage 1
        ⟨p1, acts1, rng1.tail, p1.alive⟩
      else
        let p1 := p.take_damage 1
        ⟨p1, acts1, rng1.tail, p1.alive⟩
  else
    if Item.EncryptedRadio ∈ p.inventory ∨ p.role = .IntelligenceOfficer then
      ⟨p, acts1, rng, true⟩
    else combat_encounter p 2 fuel acts1 rng

inductive EncounterId
  | village_checkpoint
  | mountain_pass
  | abandoned_base
  | night_raze
  | convoy_ambush
deriving DecidableEq

/-- The ENCOUNTERS catalog of the source. -/
def ENCOUNTERS : List EncounterId :=
  [.village_checkpoint, .mountain_pass, .abandoned_base, .night_raze, .convoy_ambush]

/-- encounter_menu: the Intelligence Officer 40% hint roll (narration
only, but it consumes one draw), then dispatch on the encounter id. -/
def encounter_menu (p : Player) (eid : EncounterId) (fuel : Nat)
    (acts rng : List Nat) : GRes :=
  let rng1 := if p.role = .IntelligenceOfficer then rng.tail else rng
  match eid with
  | .village_checkpoint => village_checkpoint p fuel acts rng1
  | .mountain_pass => mountain_pass p fuel acts rng1
  | .abandoned_base => abandoned_base p fuel acts rng1
  | .night_raze => night_raze p fuel acts rng1
  | .convoy_ambush => convoy_ambush p fuel acts rng1

/-- The post-mission Medic recovery: `if player.role == "Medic" and
roll(30): player.heal(1)` (the roll is consumed only for Medics). -/
def medic_rest (p : Player) (rng : List Nat) : Player × List Nat :=
  if p.role = .Medic then
    if roll 30 (rng.headD 0) then (p.heal 1, rng.tail) else (p, rng.tail)
  else (p, rng)

/-- Result of the mission sequence: final player, remaining streams,
overall boolean, plus a ghost counter of how many times the
"mission had complications, but you push on" branch executed. -/
structure SeqRes where
  p : Player
  acts : List Nat
  rng : List Nat
  ok : Bool
  pushOnCount : Nat
deriving DecidableEq

/-- play_mission_sequence: per mission, pick an encounter uniformly from
ENCOUNTERS (one draw, index mod 5), dispatch, return False on death,
count completed missions on success, take the push-on branch on
non-fatal failure, apply the Medic rest roll, and continue; after all
missions return the alive flag. -/
def play_mission_sequence (fuel : Nat) : Nat → Player → List Nat → List Nat → SeqRes
  | 0, p, acts, rng => ⟨p, acts, rng, p.alive, 0⟩
  | Nat.succ n, p, acts, rng =>
    match encounter_menu p (ENCOUNTERS.getD (rng.headD 0 % 5) .village_checkpoint)
        fuel acts rng.tail with
    | ⟨q, acts2, rng2, ok⟩ =>
      if q.alive = false then ⟨q, acts2, rng2, false, 0⟩
      else if ok then
        match medic_rest { q with missions_completed := q.missions_completed + 1 } rng2 with
        | (p3, rng3) => play_mission_sequence fuel n p3 acts2 rng3
      else if q.alive = true then
        match medic_rest q rng2 with
        | (p3, rng3) =>
          match play_mission_sequence fuel n p3 acts2 rng3 with
          | ⟨p4, acts4, rng4, ok4, g4⟩ => ⟨p4, acts4, rng4, ok4, g4 + 1⟩
      else ⟨q, acts2, rng2, false, 0⟩

/-- final_resolution: one integer draw in [1,100]; 1-10 instant death,
11-55 safe return, 56-100 death from injuries. -/
def final_resolution (p : Player) (roll_val : Int) : Player × Bool :=
  if roll_val ≤ 10 then ({ p with alive := false }, false)
  else if roll_val ≤ 55 then (p, true)
  else ({ p with alive := false }, false)

/-- random.randint(1, 100) modelled on one draw. -/
def randint_1_100 (d : Nat) : Int := (d % 100 : Nat) + 1

inductive Outcome
  | diedInCampaign
  | safeReturn
  | extractionDeath
deriving DecidableEq

/-- The decision core of main(): build the player, run the mission
sequence, and invoke final_resolution only when the sequence returned
True with the player still alive. -/
def main_run (role : Role) (missions fuel : Nat) (acts rng : List Nat) :
    Player × Outcome :=
  let p := Player.init role
  let s := play_mission_sequence fuel missions p acts rng
  if s.ok = false ∨ s.p.alive = false then (s.p, .diedInCampaign)
  else
    let fr := final_resolution s.p (randint_1_100 (s.rng.headD 0))
    (fr.1, if fr.2 then .safeReturn else .extractionDeath)

/-! Field behaviour of the two Player mutators. -/

@[simp] theorem take_damage_role (p : Player) (n : Int) :
    (p.take_damage n).role = p.role := by
  unfold Player.take_damage; split <;> rfl

@[simp] theorem take_damage_mission_heals (p : Player) (n : Int) :
    (p.take_damage n).mission_heals = p.mission_heals := by
  unfold Player.take_damage; split <;> rfl

@[simp] theorem take_damage_sniper_special (p : Player) (n : Int) :
    (p.take_damage n).sniper_special_used = p.sniper_special_used := by
  unfold Player.take_damage; split <;> rfl

@[simp] theorem take_damage_heal_fires (p : Player) (n : Int) :
    (p.take_damage n).heal_fires = p.heal_fires := by
  unfold Player.take_damage; split <;> rfl

@[simp] theorem take_damage_sniper_fires (p : Player) (n : Int) :
    (p.take_damage n).sniper_fires = p.sniper_fires := by
  unfold Player.take_damage; split <;> rfl

@[simp] theorem take_damage_inventory (p : Player) (n : Int) :
    (p.take_damage n).inventory = p.inventory := by
  unfold Player.take_damage; split <;> rfl

@[simp] theorem take_damage_hp (p : Player) (n : Int) :
    (p.take_damage n).hp = p.hp - n := by
  unfold Player.take_damage; split <;> rfl

@[simp] theorem take_damage_alive (p : Player) (n : Int) :
    (p.take_damage n).alive = if p.hp - n ≤ 0 then false else p.alive := by
  unfold Player.take_damage; split <;> simp_all

@[simp] theorem heal_role (p : Player) (n : Int) : (p.heal n).role = p.role := rfl

@[simp] theorem heal_alive (p : Player) (n : Int) : (p.heal n).alive = p.alive := rfl

@[simp] theorem heal_hp (p : Player) (n : Int) : (p.heal n).hp = min 3 (p.hp + n) := rfl

@[simp] theorem heal_mission_heals (p : Player) (n : Int) :
    (p.heal n).mission_heals = p.mission_heals := rfl

@[simp] theorem heal_sniper_special (p : Player) (n : Int) :
    (p.heal n).sniper_special_used = p.sniper_special_used := rfl

@[simp] theorem heal_heal_fires (p : Player) (n : Int) :
    (p.heal n).heal_fires = p.heal_fires := rfl

@[simp] theorem heal_sniper_fires (p : Player) (n : Int) :
    (p.heal n).sniper_fires = p.sniper_fires := rfl

@[simp] theorem heal_inventory (p : Player) (n : Int) :
    (p.heal n).inventory = p.inventory := rfl

/-! Ability budgets.  Each one-shot ability has an invariant budget:
ghost fire count plus remaining charge.  Every operation of the game
preserves both budgets exactly, and never revives a dead player;
`Steps p q` packages these three facts for a state change p → q. -/

def healBudget (p : Player) : Nat := p.heal_fires + p.mission_heals

def sniperBudget (p : Player) : Nat :=
  p.sniper_fires + (if p.sniper_special_used = true then 0 else 1)

def Steps (p q : Player) : Prop :=
  healBudget q = healBudget p ∧ sniperBudget q = sniperBudget p ∧
    (p.alive = false → q.alive = false)

theorem Steps_refl (p : Player) : Steps p p := ⟨rfl, rfl, fun h => h⟩

theorem Steps_trans {p q r : Player} (h1 : Steps p q) (h2 : Steps q r) : Steps p r :=
  ⟨h2.1.trans h1.1, h2.2.1.trans h1.2.1, fun h => h2.2.2 (h1.2.2 h)⟩

theorem Steps_take_damage (p : Player) (n : Int) : Steps p (p.take_damage n) := by
  refine ⟨by simp [healBudget], by simp [sniperBudget], fun h => ?_⟩
  simp [h]

theorem Steps_heal (p : Player) (n : Int) : Steps p (p.heal n) := ⟨rfl, rfl, fun h => h⟩

theorem Steps_usedCounter (p : Player) (d e : Int) (rng : List Nat) :
    Steps p (usedCounter p d e rng).p := by
  unfold usedCounter
  split_ifs <;> first | exact Steps_refl p | exact Steps_take_damage p 1

theorem Steps_enemyCounter (p : Player) (d e : Int) (rng : List Nat) :
    Steps p (enemyCounter p d e rng).p := by
  simp only [enemyCounter]
  split_ifs <;>
    first
      | exact Steps_refl p
      | exact Steps_take_damage p 1
      | exact ⟨rfl, rfl, fun _ => rfl⟩

theorem Steps_shootingPhase (p : Player) (d e : Int) (a : Nat) (rng : List Nat) :
    Steps p (shootingPhase p d e a rng).p := by
  unfold shootingPhase
  split_ifs <;> apply Steps_enemyCounter

theorem Steps_combatRound (p : Player) (d e : Int) (a : Nat) (rng : List Nat) :
    Steps p (combatRound p d e a rng).p := by
  simp only [combatRound]
  split_ifs <;>
    first
      | exact Steps_refl p
      | exact Steps_take_damage p 1
      | apply Steps_shootingPhase
      | (refine Steps_trans ?_ (Steps_usedCounter _ _ _ _)
         refine ⟨?_, ?_, fun hz => hz⟩ <;> simp_all [healBudget, sniperBudget] <;>
           first
             | rfl
             | omega)

theorem Steps_combatLoop (d : Int) (fuel : Nat) (p : Player) (e : Int)
    (acts rng : List Nat) : Steps p (combatLoop d fuel p e acts rng).p := by
  induction fuel generalizing p e acts rng with
  | zero => exact Steps_refl p
  | succ n ih =>
    unfold combatLoop
    split
    · rcases hR : combatRound p d e (acts.headD 0 % 6) rng with ⟨q, e2, rng2, early⟩
      have hq : Steps p q := by
        have := Steps_combatRound p d e (acts.headD 0 % 6) rng
        rw [hR] at this; exact this
      match early with
      | some true => exact hq
      | some false => exact hq
      | none => exact Steps_trans hq (ih q e2 acts.tail rng2)
    · exact Steps_refl p

theorem Steps_combat_encounter (p : Player) (d : Int) (fuel : Nat)
    (acts rng : List Nat) : Steps p (combat_encounter p d fuel acts rng).p := by
  unfold combat_encounter
  split
  · exact ⟨rfl, rfl, fun _ => rfl⟩
  · rcases hL : combatLoop d fuel p d acts rng.tail with ⟨q, e2, acts2, rng2, ex⟩
    have hq : Steps p q := by
      have := Steps_combatLoop d fuel p d acts rng.tail
      rw [hL] at this; exact this
    match ex with
    | .fled => exact hq
    | .earlyDeath => exact hq
    | .fuelOut => exact hq
    | .loopDone =>
      dsimp only
      split_ifs <;> exact hq

theorem Steps_village_checkpoint (p : Player) (fuel : Nat) (acts rng : List Nat) :
    Steps p (village_checkpoint p fuel acts rng).p := by
  simp only [village_checkpoint]
  split_ifs <;>
    first
      | exact ⟨rfl, rfl, fun h => h⟩
      | apply Steps_combat_encounter

theorem Steps_mountain_pass (p : Player) (fuel : Nat) (acts rng : List Nat) :
    Steps p (mountain_pass p fuel acts rng).p := by
  simp only [mountain_pass]
  split_ifs <;>
    first
      | exact ⟨rfl, rfl, fun h => h⟩
      | exact Steps_take_damage p 1
      | apply Steps_combat_encounter

theorem Steps_abandoned_base (p : Player) (fuel : Nat) (acts rng : List Nat) :
    Steps p (abandoned_base p fuel acts rng).p := by
  simp only [abandoned_base]
  split_ifs <;>
    first
      | exact ⟨rfl, rfl, fun h => h⟩
      | apply Steps_combat_encounter

theorem Steps_night_raze (p : Player) (fuel : Nat) (acts rng : List Nat) :
    Steps p (night_raze p fuel acts rng).p := by
  simp only [night_raze]
  split_ifs <;>
    first
      | exact ⟨rfl, rfl, fun h => h⟩
      | apply Steps_combat_encounter

theorem Steps_convoy_ambush (p : Player) (fuel : Nat) (acts rng : List Nat) :
    Steps p (convoy_ambush p fuel acts rng).p := by
  simp only [convoy_ambush]
  split_ifs <;>
    first
      | exact ⟨rfl, rfl, fun h => h⟩
      | exact Steps_take_damage p 1
      | apply Steps_combat_encounter

theorem Steps_encounter_menu (p : Player) (eid : EncounterId) (fuel : Nat)
    (acts rng : List Nat) : Steps p (encounter_menu p eid fuel acts rng).p := by
  unfold encounter_menu
  match eid with
  | .village_checkpoint => apply Steps_village_checkpoint
  | .mountain_pass => apply Steps_mountain_pass
  | .abandoned_base => apply Steps_abandoned_base
  | .night_raze => apply Steps_night_raze
  | .convoy_ambush => apply Steps_convoy_ambush

theorem Steps_medic_rest (p : Player) (rng : List Nat) :
    Steps p (medic_rest p rng).1 := by
  unfold medic_rest
  split_ifs <;> exact Steps_refl p

theorem Steps_play_mission_sequence (fuel n : Nat) (p : Player) (acts rng : List Nat) :
    Steps p (play_mission_sequence fuel n p acts rng).p := by
  induction n generalizing p acts rng with
  | zero => exact Steps_refl p
  | succ m ih =>
    unfold play_mission_sequence
    rcases hE : encounter_menu p
        (ENCOUNTERS.getD (rng.headD 0 % 5) .village_checkpoint) fuel acts rng.tail with
      ⟨q, acts2, rng2, ok⟩
    have hq : Steps p q := by
      have := Steps_encounter_menu p
        (ENCOUNTERS.getD (rng.headD 0 % 5) .village_checkpoint) fuel acts rng.tail
      rw [hE] at this; exact this
    dsimp only
    split_ifs with hAlive hOk hAlive2
    · exact hq
    · rcases hM : medic_rest { q with missions_completed := q.missions_completed + 1 } rng2
        with ⟨p3, rng3⟩
      have hq3 : Steps q p3 := by
        have := Steps_medic_rest { q with missions_completed := q.missions_completed + 1 } rng2
        rw [hM] at this
        exact Steps_trans (⟨rfl, rfl, fun h => h⟩ :
          Steps q { q with missions_completed := q.missions_completed + 1 }) this
      exact Steps_trans (Steps_trans hq hq3) (ih p3 acts2 rng3)
    · rcases hM : medic_rest q rng2 with ⟨p3, rng3⟩
      have hq3 : Steps q p3 := by
        have := Steps_medic_rest q rng2
        rw [hM] at this; exact this
      rcases hR : play_mission_sequence fuel m p3 acts2 rng3 with ⟨p4, acts4, rng4, ok4, g4⟩
      have hq4 : Steps p3 p4 := by
        have := ih p3 acts2 rng3
        rw [hR] at this; exact this
      exact Steps_trans (Steps_trans hq hq3) hq4
    · exact hq

/-- final_resolution never touches the ability state and never revives. -/
theorem Steps_final_resolution (p : Player) (v : Int) :
    Steps p (final_resolution p v).1 := by
  unfold final_resolution
  split_ifs <;> first | exact Steps_refl p | exact ⟨rfl, rfl, fun _ => rfl⟩

/-! HP invariant: hp stays in [0,3] and a living player has hp >= 1.
Damage is only dealt to a living player (one point at a time), so hp
never becomes negative. -/

def HpInv (p : Player) : Prop :=
  0 ≤ p.hp ∧ p.hp ≤ 3 ∧ (p.alive = true → 1 ≤ p.hp)

theorem HpInv_take_damage (p : Player) (ha : p.alive = true) (h : HpInv p) :
    HpInv (p.take_damage 1) := by
  obtain ⟨h1, h2, h3⟩ := h
  have h4 := h3 ha
  unfold HpInv
  simp only [take_damage_hp, take_damage_alive]
  split_ifs <;> simp <;> omega

theorem HpInv_heal (p : Player) (h : HpInv p) : HpInv (p.heal 1) := by
  obtain ⟨h1, h2, h3⟩ := h
  refine ⟨?_, ?_, fun ha => ?_⟩ <;> simp only [heal_hp, heal_alive]
  · omega
  · omega
  · have := h3 ha; omega

theorem HpInv_set_dead (p : Player) (h : HpInv p) : HpInv { p with alive := false } :=
  ⟨h.1, h.2.1, fun hc => absurd hc (by simp)⟩

theorem HpInv_usedCounter (p : Player) (d e : Int) (rng : List Nat)
    (ha : p.alive = true) (h : HpInv p) : HpInv (usedCounter p d e rng).p := by
  unfold usedCounter
  split_ifs <;> first | exact h | exact HpInv_take_damage p ha h

theorem HpInv_enemyCounter (p : Player) (d e : Int) (rng : List Nat)
    (ha : p.alive = true) (h : HpInv p) : HpInv (enemyCounter p d e rng).p := by
  simp only [enemyCounter]
  split_ifs <;>
    first
      | exact h
      | exact HpInv_take_damage p ha h
      | exact HpInv_set_dead p h

theorem HpInv_shootingPhase (p : Player) (d e : Int) (a : Nat) (rng : List Nat)
    (ha : p.alive = true) (h : HpInv p) : HpInv (shootingPhase p d e a rng).p := by
  unfold shootingPhase
  split_ifs <;> apply HpInv_enemyCounter <;> assumption

theorem HpInv_combatRound (p : Player) (d e : Int) (a : Nat) (rng : List Nat)
    (ha : p.alive = true) (h : HpInv p) : HpInv (combatRound p d e a rng).p := by
  simp only [combatRound]
  split_ifs <;>
    first
      | exact h
      | exact HpInv_take_damage p ha h
      | (apply HpInv_shootingPhase <;> assumption)
      | (apply HpInv_usedCounter <;>
          first
            | exact ha
            | exact h
            | exact HpInv_heal p h)

theorem HpInv_combatLoop (d : Int) (fuel : Nat) (p : Player) (e : Int)
    (acts rng : List Nat) (h : HpInv p) : HpInv (combatLoop d fuel p e acts rng).p := by
  induction fuel generalizing p e acts rng with
  | zero => exact h
  | succ n ih =>
    unfold combatLoop
    split
    · next hc =>
      rcases hR : combatRound p d e (acts.headD 0 % 6) rng with ⟨q, e2, rng2, early⟩
      have hq : HpInv q := by
        have := HpInv_combatRound p d e (acts.headD 0 % 6) rng hc.2 h
        rw [hR] at this; exact this
      match early with
      | some true => exact hq
      | some false => exact hq
      | none => exact ih q e2 acts.tail rng2 hq
    · exact h

theorem HpInv_combat_encounter (p : Player) (d : Int) (fuel : Nat)
    (acts rng : List Nat) (h : HpInv p) : HpInv (combat_encounter p d fuel acts rng).p := by
  unfold combat_encounter
  split
  · exact HpInv_set_dead p h
  · rcases hL : combatLoop d fuel p d acts rng.tail with ⟨q, e2, acts2, rng2, ex⟩
    have hq : HpInv q := by
      have := HpInv_combatLoop d fuel p d acts rng.tail h
      rw [hL] at this; exact this
    match ex with
    | .fled => exact hq
    | .earlyDeath => exact hq
    | .fuelOut => exact hq
    | .loopDone =>
      dsimp only
      split_ifs <;> exact hq

theorem HpInv_village_checkpoint (p : Player) (fuel : Nat) (acts rng : List Nat)
    (h : HpInv p) : HpInv (village_checkpoint p fuel acts rng).p := by
  simp only [village_checkpoint]
  split_ifs <;> first | exact h | (apply HpInv_combat_encounter; exact h)

theorem HpInv_mountain_pass (p : Player) (fuel : Nat) (acts rng : List Nat)
    (ha : p.alive = true) (h : HpInv p) : HpInv (mountain_pass p fuel acts rng).p := by
  simp only [mountain_pass]
  split_ifs <;>
    first
      | exact h
      | exact HpInv_take_damage p ha h
      | (apply HpInv_combat_encounter; exact h)

theorem HpInv_abandoned_base (p : Player) (fuel : Nat) (acts rng : List Nat)
    (h : HpInv p) : HpInv (abandoned_base p fuel acts rng).p := by
  simp only [abandoned_base]
  split_ifs <;> first | exact h | (apply HpInv_combat_encounter; exact h)

theorem HpInv_night_raze (p : Player) (fuel : Nat) (acts rng : List Nat)
    (h : HpInv p) : HpInv (night_raze p fuel acts rng).p := by
  simp only [night_raze]
  split_ifs <;> first | exact h | (apply HpInv_combat_encounter; exact h)

theorem HpInv_convoy_ambush (p : Player) (fuel : Nat) (acts rng : List Nat)
    (ha : p.alive = true) (h : HpInv p) : HpInv (convoy_ambush p fuel acts rng).p := by
  simp only [convoy_ambush]
  split_ifs <;>
    first
      | exact h
      | exact HpInv_take_damage p ha h
      | (apply HpInv_combat_encounter; exact h)

theorem HpInv_encounter_menu (p : Player) (eid : EncounterId) (fuel : Nat)
    (acts rng : List Nat) (ha : p.alive = true) (h : HpInv p) :
    HpInv (encounter_menu p eid fuel acts rng).p := by
  unfold encounter_menu
  match eid with
  | .village_checkpoint => exact HpInv_village_checkpoint p fuel acts _ h
  | .mountain_pass => exact HpInv_mountain_pass p fuel acts _ ha h
  | .abandoned_base => exact HpInv_abandoned_base p fuel acts _ h
  | .night_raze => exact HpInv_night_raze p fuel acts _ h
  | .convoy_ambush => exact HpInv_convoy_ambush p fuel acts _ ha h

theorem HpInv_medic_rest (p : Player) (rng : List Nat) (h : HpInv p) :
    HpInv (medic_rest p rng).1 := by
  unfold medic_rest
  split_ifs <;> first | exact h | exact HpInv_heal p h

theorem medic_rest_alive (p : Player) (rng : List Nat) :
    (medic_rest p rng).1.alive = p.alive := by
  unfold medic_rest
  split_ifs <;> simp

theorem HpInv_play_mission_sequence (fuel n : Nat) (p : Player) (acts rng : List Nat)
    (ha : p.alive = true) (h : HpInv p) :
    HpInv (play_mission_sequence fuel n p acts rng).p := by
  induction n generalizing p acts rng with
  | zero => exact h
  | succ m ih =>
    unfold play_mission_sequence
    rcases hE : encounter_menu p
        (ENCOUNTERS.getD (rng.headD 0 % 5) .village_checkpoint) fuel acts rng.tail with
      ⟨q, acts2, rng2, ok⟩
    have hq : HpInv q := by
      have := HpInv_encounter_menu p
        (ENCOUNTERS.getD (rng.headD 0 % 5) .village_checkpoint) fuel acts rng.tail ha h
      rw [hE] at this; exact this
    dsimp only
    split_ifs with hAlive hOk hAlive2
    · exact hq
    · rcases hM : medic_rest { q with missions_completed := q.missions_completed + 1 } rng2
        with ⟨p3, rng3⟩
      have hq3 : HpInv p3 := by
        have := HpInv_medic_rest { q with missions_completed := q.missions_completed + 1 } rng2 hq
        rw [hM] at this; exact this
      have ha3 : p3.alive = true := by
        have hs := medic_rest_alive
          { q with missions_completed := q.missions_completed + 1 } rng2
        rw [hM] at hs
        simp only at hs
        rw [hs]
        cases hy : q.alive with
        | true => rfl
        | false => exact absurd hy hAlive
      exact ih p3 acts2 rng3 ha3 hq3
    · rcases hM : medic_rest q rng2 with ⟨p3, rng3⟩
      have hq3 : HpInv p3 := by
        have := HpInv_medic_rest q rng2 hq
        rw [hM] at this; exact this
      have ha3 : p3.alive = true := by
        have hs := medic_rest_alive q rng2
        rw [hM] at hs
        simp only at hs
        rw [hs, hAlive2]
      rcases hR : play_mission_sequence fuel m p3 acts2 rng3 with ⟨p4, acts4, rng4, ok4, g4⟩
      have : HpInv (play_mission_sequence fuel m p3 acts2 rng3).p := ih p3 acts2 rng3 ha3 hq3
      rw [hR] at this
      exact this
    · exact hq

/-! Failure implies death: combat and every encounter resolver return
False only with the alive flag already false, so the orchestrator
branch for continuing after a non-fatal failure can never run. -/

theorem usedCounter_early (p : Player) (d e : Int) (rng : List Nat) :
    (usedCounter p d e rng).early = none := by
  unfold usedCounter
  split_ifs <;> rfl

theorem enemyCounter_early_false (p : Player) (d e : Int) (rng : List Nat)
    (h : (enemyCounter p d e rng).early = some false) :
    (enemyCounter p d e rng).p.alive = false := by
  simp only [enemyCounter] at *
  split_ifs at h ⊢ <;> simp_all

theorem shootingPhase_early_false (p : Player) (d e : Int) (a : Nat) (rng : List Nat)
    (h : (shootingPhase p d e a rng).early = some false) :
    (shootingPhase p d e a rng).p.alive = false := by
  unfold shootingPhase at *
  split_ifs at h ⊢ <;> exact enemyCounter_early_false p d _ _ h

theorem combatRound_early_false (p : Player) (d e : Int) (a : Nat) (rng : List Nat)
    (h : (combatRound p d e a rng).early = some false) :
    (combatRound p d e a rng).p.alive = false := by
  simp only [combatRound] at *
  split_ifs at h ⊢ <;>
    first
      | exact shootingPhase_early_false _ _ _ _ _ h
      | (rw [usedCounter_early] at h; exact absurd h (by simp))
      | simp_all

theorem combatLoop_earlyDeath (d : Int) (fuel : Nat) (p : Player) (e : Int)
    (acts rng : List Nat)
    (h : (combatLoop d fuel p e acts rng).exit = CombatExit.earlyDeath) :
    (combatLoop d fuel p e acts rng).p.alive = false := by
  induction fuel generalizing p e acts rng with
  | zero => simp [combatLoop] at h
  | succ n ih =>
    unfold combatLoop at h ⊢
    split_ifs at h ⊢
    · rcases hR : combatRound p d e (acts.headD 0 % 6) rng with ⟨q, e2, rng2, early⟩
      rw [hR] at h
      cases early with
      | none => exact ih q e2 acts.tail rng2 h
      | some b =>
        cases b with
        | true => simp at h
        | false =>
          have := combatRound_early_false p d e (acts.headD 0 % 6) rng
          rw [hR] at this
          exact this rfl

theorem combat_ok_false (p : Player) (d : Int) (fuel : Nat) (acts rng : List Nat)
    (h : (combat_encounter p d fuel acts rng).ok = false) :
    (combat_encounter p d fuel acts rng).p.alive = false := by
  unfold combat_encounter at h ⊢
  split_ifs at h ⊢
  · rfl
  · rcases hL : combatLoop d fuel p d acts rng.tail with ⟨q, e2, acts2, rng2, ex⟩
    rw [hL] at h
    cases ex with
    | fled => simp at h
    | earlyDeath =>
      have := combatLoop_earlyDeath d fuel p d acts rng.tail
      rw [hL] at this
      exact this rfl
    | fuelOut => exact h
    | loopDone =>
      dsimp only at h ⊢
      split_ifs at h ⊢ with h1 h2 <;> simp_all

theorem village_checkpoint_ok_false (p : Player) (fuel : Nat) (acts rng : List Nat)
    (h : (village_checkpoint p fuel acts rng).ok = false) :
    (village_checkpoint p fuel acts rng).p.alive = false := by
  simp only [village_checkpoint] at *
  split_ifs at h ⊢ <;> exact combat_ok_false _ _ _ _ _ h

theorem mountain_pass_ok_false (p : Player) (fuel : Nat) (acts rng : List Nat)
    (h : (mountain_pass p fuel acts rng).ok = false) :
    (mountain_pass p fuel acts rng).p.alive = false := by
  simp only [mountain_pass] at *
  split_ifs at h ⊢ <;> first | exact combat_ok_false _ _ _ _ _ h | exact h

theorem abandoned_base_ok_false (p : Player) (fuel : Nat) (acts rng : List Nat)
    (h : (abandoned_base p fuel acts rng).ok = false) :
    (abandoned_base p fuel acts rng).p.alive = false := by
  simp only [abandoned_base] at *
  split_ifs at h ⊢ <;> exact combat_ok_false _ _ _ _ _ h

theorem night_raze_ok_false (p : Player) (fuel : Nat) (acts rng : List Nat)
    (h : (night_raze p fuel acts rng).ok = false) :
    (night_raze p fuel acts rng).p.alive = false := by
  simp only [night_raze] at *
  split_ifs at h ⊢ <;> exact combat_ok_false _ _ _ _ _ h

theorem convoy_ambush_ok_false (p : Player) (fuel : Nat) (acts rng : List Nat)
    (h : (convoy_ambush p fuel acts rng).ok = false) :
    (convoy_ambush p fuel acts rng).p.alive = false := by
  simp only [convoy_ambush] at *
  split_ifs at h ⊢ <;> first | exact combat_ok_false _ _ _ _ _ h | exact h

theorem encounter_menu_ok_false (p : Player) (eid : EncounterId) (fuel : Nat)
    (acts rng : List Nat) (h : (encounter_menu p eid fuel acts rng).ok = false) :
    (encounter_menu p eid fuel acts rng).p.alive = false := by
  unfold encounter_menu at *
  match eid with
  | .village_checkpoint => exact village_checkpoint_ok_false _ _ _ _ h
  | .mountain_pass => exact mountain_pass_ok_false _ _ _ _ h
  | .abandoned_base => exact abandoned_base_ok_false _ _ _ _ h
  | .night_raze => exact night_raze_ok_false _ _ _ _ h
  | .convoy_ambush => exact convoy_ambush_ok_false _ _ _ _ h

/-- The "complications, push on" branch of play_mission_sequence is
never executed: its ghost counter stays 0 on every input. -/
theorem pushOnCount_zero (fuel n : Nat) (p : Player) (acts rng : List Nat) :
    (play_mission_sequence fuel n p acts rng).pushOnCount = 0 := by
  induction n generalizing p acts rng with
  | zero => rfl
  | succ m ih =>
    unfold play_mission_sequence
    rcases hE : encounter_menu p
        (ENCOUNTERS.getD (rng.headD 0 % 5) .village_checkpoint) fuel acts rng.tail with
      ⟨q, acts2, rng2, ok⟩
    dsimp only
    split_ifs with hAlive hOk hAlive2
    · rfl
    · rcases hM : medic_rest { q with missions_completed := q.missions_completed + 1 } rng2
        with ⟨p3, rng3⟩
      exact ih p3 acts2 rng3
    · exfalso
      have hok : ok = false := by
        cases hx : ok with
        | true => exact absurd hx hOk
        | false => rfl
      have := encounter_menu_ok_false p
        (ENCOUNTERS.getD (rng.headD 0 % 5) .village_checkpoint) fuel acts rng.tail
      rw [hE] at this
      exact hAlive (this hok)
    · rfl

/-- The enemy counterattack block never changes the hp of the enemy. -/
theorem enemyCounter_enemy_hp (p : Player) (d e : Int) (rng : List Nat) :
    (enemyCounter p d e rng).enemy_hp = e := by
  simp only [enemyCounter]
  split_ifs <;> rfl

/-! The claims. -/

/-- Claim C1 (code bug).  The claim says that in the Mountain Pass
encounter with option 0, for a character who does not take the Sniper
auto-safe path, a successful 30% sniper-fire roll delegates to the
combat engine at difficulty 2, and only a failed roll loots rations.
In the source the `return combat_encounter(player, difficulty=2)` of
that branch sits inside a comment block pasted into the function
(game.py lines 359-362), so the 30% roll selects narration only: even
when it succeeds (draw d < 30), the code loots Rations and returns
success, consuming no combat draw and leaving hp and the alive flag
untouched.  This theorem evaluates the code on exactly that scenario. -/
theorem C1_mountain_pass_sniper_fire_no_combat (p : Player) (fuel : Nat)
    (acts rest : List Nat) (d : Nat) (hrole : p.role ≠ Role.Sniper) (hd : d < 30) :
    mountain_pass p fuel (0 :: acts) (d :: rest) =
      ⟨{ p with inventory := p.inventory ++ [Item.Rations] }, acts, rest, true⟩ := by
  simp [mountain_pass, hrole]

theorem C1_witness :
    (Player.init Role.Soldier).role ≠ Role.Sniper ∧ (0 : Nat) < 30 ∧
    mountain_pass (Player.init Role.Soldier) 1 (0 :: []) (0 :: []) =
      ⟨{ Player.init Role.Soldier with
          inventory := (Player.init Role.Soldier).inventory ++ [Item.Rations] },
        [], [], true⟩ :=
  ⟨by decide, by decide,
    C1_mountain_pass_sniper_fire_no_combat (Player.init Role.Soldier) 1 [] [] 0
      (by decide) (by decide)⟩

/-- Claim C2 counterexample.  The claim says a combat round in which the
special/item action applies none of its four options grants the enemy a
counterattack opportunity only, with no player shooting roll and enemy
hp unchanged by the player.  Concretely: a fresh Soldier (no Medic
charge, not a Sniper, no Med Pack, no Assault Rifle) at difficulty 1
with enemy hp 1 picks action 5; with the single remaining draw 30 the
fall-through shooting roll (chance 45, clamp 45, 30 < 45) hits and
kills the enemy that same round — enemy hp drops from 1 to 0, refuting
"enemy hp is unchanged by the player that round". -/
theorem C2_counterexample :
    (combatRound (Player.init Role.Soldier) 1 1 5 [30]).enemy_hp ≠ 1 ∧
    (combatRound (Player.init Role.Soldier) 1 1 5 [30]).enemy_hp = 0 := by
  decide

/-- Claim C2 (amended): when the player selects the special/item action
and none of the four options applies (no Medic charge, Sniper shot
unavailable or spent, no Med Pack held, no Assault Rifle held), the
round falls through to the full shooting resolution — the player gets a
normal shooting roll at the unadjusted base accuracy
50 + accuracyBonus − 5·difficulty (action index 5 receives no aim
adjustment) and may damage the enemy, followed by the usual enemy
counterattack block; the round is not reduced to an enemy
counterattack opportunity only. -/
theorem C2_failed_special_falls_through_to_shooting (p : Player) (d e : Int)
    (rng : List Nat)
    (h1 : ¬(p.role = Role.Medic ∧ p.mission_heals > 0))
    (h2 : ¬(p.role = Role.Sniper ∧ p.sniper_special_used = false))
    (h3 : Item.MedPack ∉ p.inventory)
    (h4 : Item.AssaultRifle ∉ p.inventory) :
    combatRound p d e 5 rng = shootingPhase p d e 5 rng ∧
    base_hit_chance p d 5 = 50 + p.accuracy_bonus - d * 5 := by
  constructor
  · simp [combatRound, h1, h2, h3, h4]
  · simp [base_hit_chance]

theorem C2_amended_witness :
    combatRound (Player.init Role.Soldier) 2 2 5 [50] =
      shootingPhase (Player.init Role.Soldier) 2 2 5 [50] ∧
    base_hit_chance (Player.init Role.Soldier) 2 5 =
      50 + (Player.init Role.Soldier).accuracy_bonus - 2 * 5 :=
  C2_failed_special_falls_through_to_shooting (Player.init Role.Soldier) 2 2 [50]
    (by decide) (by decide) (by decide) (by decide)

/-- Claim C3: every invocation of the combat engine evaluates the 10%
instant-fatal-headshot roll exactly once, on its first draw, before the
round loop.  When that draw fires (d0 < 10) the result is the input
player with the alive flag set false and a False return — for every
fuel bound and every action stream, and identically for every
difficulty: the enemy hp (which is initialized from the difficulty) is
never initialized or consulted on this path. -/
theorem C3_instant_headshot_precheck (p : Player) (d d2 : Int) (fuel fuel2 : Nat)
    (acts rest : List Nat) (d0 : Nat) (h : d0 < 10) :
    combat_encounter p d fuel acts (d0 :: rest) =
      ⟨{ p with alive := false }, acts, rest, false⟩ ∧
    combat_encounter p d fuel acts (d0 :: rest) =
      combat_encounter p d2 fuel2 acts (d0 :: rest) := by
  have hroll : roll 10 d0 = true := by
    simp only [roll, decide_eq_true_eq]
    exact_mod_cast h
  constructor <;> simp [combat_encounter, hroll]

theorem C3_witness :
    (4 : Nat) < 10 ∧
    (combat_encounter (Player.init Role.Medic) 2 0 [1, 2] (4 :: [9]) =
      ⟨{ Player.init Role.Medic with alive := false }, [1, 2], [9], false⟩ ∧
    combat_encounter (Player.init Role.Medic) 2 0 [1, 2] (4 :: [9]) =
      combat_encounter (Player.init Role.Medic) 3 7 [1, 2] (4 :: [9])) :=
  ⟨by decide, C3_instant_headshot_precheck (Player.init Role.Medic) 2 3 0 7 [1, 2] [9] 4
    (by decide)⟩

/-- Claim C4: over any run of up to 10 missions (any fuel, any choice
and random streams), the Medic heal and the Sniper guaranteed shot each
fire at most once: mission_heals starts at 1 for Medics and 0
otherwise, sniper_special_used starts false, and since the ability
budgets are never replenished, the ghost fire counters end at most 1
and the heal charge never exceeds its initial value. -/
theorem C4_one_shot_abilities (role : Role) (missions fuel : Nat)
    (acts rng : List Nat) (hm : missions ≤ 10) :
    (Player.init role).mission_heals = (if role = Role.Medic then 1 else 0) ∧
    (Player.init role).sniper_special_used = false ∧
    (play_mission_sequence fuel missions (Player.init role) acts rng).p.heal_fires ≤ 1 ∧
    (play_mission_sequence fuel missions (Player.init role) acts rng).p.sniper_fires ≤ 1 ∧
    (play_mission_sequence fuel missions (Player.init role) acts rng).p.mission_heals ≤
      (Player.init role).mission_heals := by
  obtain ⟨hH, hS, _⟩ := Steps_play_mission_sequence fuel missions (Player.init role) acts rng
  unfold healBudget at hH
  unfold sniperBudget at hS
  have e1 : (Player.init role).heal_fires = 0 := rfl
  have e2 : (Player.init role).mission_heals = if role = Role.Medic then 1 else 0 := rfl
  have e3 : (Player.init role).sniper_fires = 0 := rfl
  have e4 : (Player.init role).sniper_special_used = false := rfl
  rw [e1, e2] at hH
  rw [e3, e4] at hS
  norm_num at hS
  refine ⟨rfl, rfl, ?_, ?_, ?_⟩
  · rcases Decidable.em (role = Role.Medic) with hr | hr
    · rw [if_pos hr] at hH; omega
    · rw [if_neg hr] at hH; omega
  · cases hu : (play_mission_sequence fuel missions
        (Player.init role) acts rng).p.sniper_special_used
    · rw [hu] at hS; norm_num at hS; omega
    · rw [hu] at hS; norm_num at hS; omega
  · rw [e2]
    rcases Decidable.em (role = Role.Medic) with hr | hr
    · rw [if_pos hr] at hH ⊢; omega
    · rw [if_neg hr] at hH ⊢; omega

theorem C4_witness :
    (1 : Nat) ≤ 10 ∧
    ((Player.init Role.Medic).mission_heals = (if Role.Medic = Role.Medic then 1 else 0) ∧
    (Player.init Role.Medic).sniper_special_used = false ∧
    (play_mission_sequence 1 1 (Player.init Role.Medic) [1] [2]).p.heal_fires ≤ 1 ∧
    (play_mission_sequence 1 1 (Player.init Role.Medic) [1] [2]).p.sniper_fires ≤ 1 ∧
    (play_mission_sequence 1 1 (Player.init Role.Medic) [1] [2]).p.mission_heals ≤
      (Player.init Role.Medic).mission_heals) :=
  ⟨by decide, C4_one_shot_abilities Role.Medic 1 1 [1] [2] (by decide)⟩

/-- Claim C5: once the alive flag is false it stays false: healing,
damage, a whole combat, any encounter via the dispatcher, a whole
mission sequence, and final resolution all leave a dead character
dead. -/
theorem C5_death_is_monotonic (p : Player) (n m v d : Int) (fuel missions : Nat)
    (eid : EncounterId) (acts rng acts2 rng2 : List Nat) (h : p.alive = false) :
    (p.heal n).alive = false ∧
    (p.take_damage m).alive = false ∧
    (combat_encounter p d fuel acts rng).p.alive = false ∧
    (encounter_menu p eid fuel acts2 rng2).p.alive = false ∧
    (play_mission_sequence fuel missions p acts rng).p.alive = false ∧
    (final_resolution p v).1.alive = false := by
  refine ⟨by simp [h], by simp [h], ?_, ?_, ?_, ?_⟩
  · exact (Steps_combat_encounter p d fuel acts rng).2.2 h
  · exact (Steps_encounter_menu p eid fuel acts2 rng2).2.2 h
  · exact (Steps_play_mission_sequence fuel missions p acts rng).2.2 h
  · exact (Steps_final_resolution p v).2.2 h

theorem C5_witness :
    ({ Player.init Role.Soldier with alive := false } : Player).alive = false ∧
    (({ Player.init Role.Soldier with alive := false } : Player).heal 1).alive = false ∧
    (({ Player.init Role.Soldier with alive := false } : Player).take_damage 1).alive = false ∧
    (combat_encounter { Player.init Role.Soldier with alive := false } 2 3 [0] [50]).p.alive
      = false ∧
    (encounter_menu { Player.init Role.Soldier with alive := false }
      EncounterId.mountain_pass 3 [1] [50]).p.alive = false ∧
    (play_mission_sequence 3 2 { Player.init Role.Soldier with alive := false }
      [0] [50]).p.alive = false ∧
    (final_resolution { Player.init Role.Soldier with alive := false } 30).1.alive = false :=
  ⟨by decide,
    (C5_death_is_monotonic { Player.init Role.Soldier with alive := false }
      1 1 30 2 3 2 EncounterId.mountain_pass [0] [50] [1] [50] (by decide)).1,
    (C5_death_is_monotonic { Player.init Role.Soldier with alive := false }
      1 1 30 2 3 2 EncounterId.mountain_pass [0] [50] [1] [50] (by decide)).2⟩

/-- Claim C6: final_resolution maps a draw of 1-10 to instant death,
11-55 to safe return, 56-100 to death from injuries (alive set false on
both death branches, untouched on safe return); the draw used by main
is randint(1,100), always in [1,100]; and main invokes final_resolution
only when the mission sequence succeeded with the character alive —
otherwise the run ends as died-in-campaign with no extraction draw. -/
theorem C6_final_resolution_outcomes (p1 p2 p3 : Player) (v1 v2 v3 : Int) (dr : Nat)
    (role : Role) (missions fuel : Nat) (acts rng : List Nat)
    (h1a : 1 ≤ v1) (h1b : v1 ≤ 10)
    (h2a : 11 ≤ v2) (h2b : v2 ≤ 55)
    (h3a : 56 ≤ v3) (h3b : v3 ≤ 100)
    (hguard : (play_mission_sequence fuel missions (Player.init role) acts rng).ok = false ∨
      (play_mission_sequence fuel missions (Player.init role) acts rng).p.alive = false) :
    final_resolution p1 v1 = ({ p1 with alive := false }, false) ∧
    final_resolution p2 v2 = (p2, true) ∧
    final_resolution p3 v3 = ({ p3 with alive := false }, false) ∧
    (1 ≤ randint_1_100 dr ∧ randint_1_100 dr ≤ 100) ∧
    main_run role missions fuel acts rng =
      ((play_mission_sequence fuel missions (Player.init role) acts rng).p,
        Outcome.diedInCampaign) := by
  refine ⟨?_, ?_, ?_, ?_, ?_⟩
  · unfold final_resolution
    rw [if_pos (by omega)]
  · unfold final_resolution
    rw [if_neg (by omega), if_pos (by omega)]
  · unfold final_resolution
    rw [if_neg (by omega), if_neg (by omega)]
  · unfold randint_1_100
    have := Nat.mod_lt dr (show 0 < 100 by omega)
    omega
  · simp only [main_run]
    rw [if_pos hguard]

theorem C6_witness :
    ((1 : Int) ≤ 5 ∧ (5 : Int) ≤ 10 ∧ (11 : Int) ≤ 30 ∧ (30 : Int) ≤ 55 ∧
      (56 : Int) ≤ 80 ∧ (80 : Int) ≤ 100 ∧
      ((play_mission_sequence 1 1 (Player.init Role.Soldier) [2] [0, 5]).ok = false ∨
        (play_mission_sequence 1 1 (Player.init Role.Soldier) [2] [0, 5]).p.alive = false)) ∧
    (final_resolution (Player.init Role.Sniper) 5 =
      ({ Player.init Role.Sniper with alive := false }, false) ∧
    final_resolution (Player.init Role.Engineer) 30 = (Player.init Role.Engineer, true) ∧
    final_resolution (Player.init Role.Medic) 80 =
      ({ Player.init Role.Medic with alive := false }, false) ∧
    (1 ≤ randint_1_100 250 ∧ randint_1_100 250 ≤ 100) ∧
    main_run Role.Soldier 1 1 [2] [0, 5] =
      ((play_mission_sequence 1 1 (Player.init Role.Soldier) [2] [0, 5]).p,
        Outcome.diedInCampaign)) :=
  ⟨by decide,
    C6_final_resolution_outcomes (Player.init Role.Sniper) (Player.init Role.Engineer)
      (Player.init Role.Medic) 5 30 80 250 Role.Soldier 1 1 [2] [0, 5]
      (by decide) (by decide) (by decide) (by decide) (by decide) (by decide) (by decide)⟩

/-- Claim C7: for every difficulty in {1,2,3} and every accuracy bonus,
the shoot-center (action 1) effective hit chance before clamping is
50 + accuracyBonus − 5·difficulty + 5, the clamped chance lies in
[5,95], and the chance actually rolled in the shooting phase is the
clamped value: the draw hits (the enemy hp decreases) exactly when the
draw is below the clamped chance. -/
theorem C7_shoot_center_chance (p : Player) (d e : Int) (draw : Nat) (rest : List Nat)
    (hd : d = 1 ∨ d = 2 ∨ d = 3) :
    base_hit_chance p d 1 = 50 + p.accuracy_bonus - 5 * d + 5 ∧
    5 ≤ clampChance (base_hit_chance p d 1) ∧
    clampChance (base_hit_chance p d 1) ≤ 95 ∧
    ((shootingPhase p d e 1 (draw :: rest)).enemy_hp < e ↔
      (draw : Int) < clampChance (base_hit_chance p d 1)) := by
  refine ⟨by simp [base_hit_chance]; ring, by unfold clampChance; omega,
    by unfold clampChance; omega, ?_⟩
  cases hroll : roll (clampChance (base_hit_chance p d 1)) draw with
  | true =>
    have hlt : (draw : Int) < clampChance (base_hit_chance p d 1) := by
      simpa [roll] using hroll
    have hhead : (draw :: rest).headD 0 = draw := rfl
    simp only [shootingPhase, hhead, hroll, if_true]
    split_ifs <;> rw [enemyCounter_enemy_hp] <;> exact iff_of_true (by omega) hlt
  | false =>
    have hge : ¬((draw : Int) < clampChance (base_hit_chance p d 1)) := by
      simpa [roll] using hroll
    have hhead : (draw :: rest).headD 0 = draw := rfl
    simp only [shootingPhase, hhead, hroll, Bool.false_eq_true, if_false]
    rw [enemyCounter_enemy_hp]
    exact iff_of_false (by omega) hge

theorem C7_witness :
    ((2 : Int) = 1 ∨ (2 : Int) = 2 ∨ (2 : Int) = 3) ∧
    (base_hit_chance (Player.init Role.Sniper) 2 1 =
      50 + (Player.init Role.Sniper).accuracy_bonus - 5 * 2 + 5 ∧
    5 ≤ clampChance (base_hit_chance (Player.init Role.Sniper) 2 1) ∧
    clampChance (base_hit_chance (Player.init Role.Sniper) 2 1) ≤ 95 ∧
    ((shootingPhase (Player.init Role.Sniper) 2 2 1 (40 :: [])).enemy_hp < 2 ↔
      ((40 : Nat) : Int) < clampChance (base_hit_chance (Player.init Role.Sniper) 2 1))) :=
  ⟨by decide,
    C7_shoot_center_chance (Player.init Role.Sniper) 2 2 40 [] (by norm_num)⟩

/-- Claim C8: healing sets hp to min(3, hp + amount), so hp never
exceeds 3 after a heal, and the campaign summary reports max(0, hp),
which is never negative. -/
theorem C8_heal_clamp_and_display (p : Player) (n : Int) :
    (p.heal n).hp = min 3 (p.hp + n) ∧
    (p.heal n).hp ≤ 3 ∧
    summary_hp p = max 0 p.hp ∧
    0 ≤ summary_hp p := by
  refine ⟨rfl, ?_, rfl, ?_⟩
  · simp only [heal_hp]; omega
  · unfold summary_hp; omega

/-- Claim C9: a False return always means the character died — for the
combat engine, for each of the five encounter resolvers, and for the
dispatcher; consequently the orchestrator branch that continues after
a non-fatal failed mission ("complications, push on") is unreachable:
its ghost counter is 0 on every input. -/
theorem C9_failure_implies_death
    (p1 p2 p3 p4 p5 p6 p7 p8 : Player) (d1 : Int)
    (f1 f2 f3 f4 f5 f6 f7 f8 n8 : Nat) (eid : EncounterId)
    (a1 r1 a2 r2 a3 r3 a4 r4 a5 r5 a6 r6 a7 r7 a8 r8 : List Nat)
    (h1 : (combat_encounter p1 d1 f1 a1 r1).ok = false)
    (h2 : (village_checkpoint p2 f2 a2 r2).ok = false)
    (h3 : (mountain_pass p3 f3 a3 r3).ok = false)
    (h4 : (abandoned_base p4 f4 a4 r4).ok = false)
    (h5 : (night_raze p5 f5 a5 r5).ok = false)
    (h6 : (convoy_ambush p6 f6 a6 r6).ok = false)
    (h7 : (encounter_menu p7 eid f7 a7 r7).ok = false) :
    (combat_encounter p1 d1 f1 a1 r1).p.alive = false ∧
    (village_checkpoint p2 f2 a2 r2).p.alive = false ∧
    (mountain_pass p3 f3 a3 r3).p.alive = false ∧
    (abandoned_base p4 f4 a4 r4).p.alive = false ∧
    (night_raze p5 f5 a5 r5).p.alive = false ∧
    (convoy_ambush p6 f6 a6 r6).p.alive = false ∧
    (encounter_menu p7 eid f7 a7 r7).p.alive = false ∧
    (play_mission_sequence f8 n8 p8 a8 r8).pushOnCount = 0 :=
  ⟨combat_ok_false p1 d1 f1 a1 r1 h1,
    village_checkpoint_ok_false p2 f2 a2 r2 h2,
    mountain_pass_ok_false p3 f3 a3 r3 h3,
    abandoned_base_ok_false p4 f4 a4 r4 h4,
    night_raze_ok_false p5 f5 a5 r5 h5,
    convoy_ambush_ok_false p6 f6 a6 r6 h6,
    encounter_menu_ok_false p7 eid f7 a7 r7 h7,
    pushOnCount_zero f8 n8 p8 a8 r8⟩

theorem C9_witness :
    ((combat_encounter (Player.init Role.Soldier) 1 1 [0] [5]).ok = false ∧
      (village_checkpoint (Player.init Role.Soldier) 1 [2] [5]).ok = false ∧
      (mountain_pass (Player.init Role.Soldier) 1 [1] [5]).ok = false ∧
      (abandoned_base (Player.init Role.Soldier) 1 [2] [5]).ok = false ∧
      (night_raze (Player.init Role.Soldier) 1 [0] [5]).ok = false ∧
      (convoy_ambush (Player.init Role.Soldier) 1 [0] [5]).ok = false ∧
      (encounter_menu (Player.init Role.Soldier) EncounterId.village_checkpoint 1
        [2] [5]).ok = false) ∧
    ((combat_encounter (Player.init Role.Soldier) 1 1 [0] [5]).p.alive = false ∧
      (village_checkpoint (Player.init Role.Soldier) 1 [2] [5]).p.alive = false ∧
      (mountain_pass (Player.init Role.Soldier) 1 [1] [5]).p.alive = false ∧
      (abandoned_base (Player.init Role.Soldier) 1 [2] [5]).p.alive = false ∧
      (night_raze (Player.init Role.Soldier) 1 [0] [5]).p.alive = false ∧
      (convoy_ambush (Player.init Role.Soldier) 1 [0] [5]).p.alive = false ∧
      (encounter_menu (Player.init Role.Soldier) EncounterId.village_checkpoint 1
        [2] [5]).p.alive = false ∧
      (play_mission_sequence 1 1 (Player.init Role.Soldier) [1] [2]).pushOnCount = 0) :=
  ⟨by decide,
    C9_failure_implies_death (Player.init Role.Soldier) (Player.init Role.Soldier)
      (Player.init Role.Soldier) (Player.init Role.Soldier) (Player.init Role.Soldier)
      (Player.init Role.Soldier) (Player.init Role.Soldier) (Player.init Role.Soldier)
      1 1 1 1 1 1 1 1 1 1 EncounterId.village_checkpoint
      [0] [5] [2] [5] [1] [5] [2] [5] [0] [5] [0] [5] [2] [5] [1] [2]
      (by decide) (by decide) (by decide) (by decide) (by decide) (by decide) (by decide)⟩

/-- Claim C10: every damage event subtracts exactly one hp; a character
at hp ≤ 1 who takes one damage has the alive flag set false; combat
keeps hp within [0,3] for any player satisfying the hp invariant; and a
whole campaign started from a fresh character keeps hp within [0,3], so
the summary clamp max(0, hp) is the identity on the final hp — it never
hides a negative value. -/
theorem C10_hp_never_negative (p1 p2 p3 : Player) (role : Role)
    (missions fuel fuel3 : Nat) (acts rng acts3 rng3 : List Nat) (d3 : Int)
    (h2 : p2.hp ≤ 1)
    (h3a : p3.alive = true) (h3b : 0 ≤ p3.hp) (h3c : p3.hp ≤ 3) (h3d : 1 ≤ p3.hp) :
    (p1.take_damage 1).hp = p1.hp - 1 ∧
    (p2.take_damage 1).alive = false ∧
    (0 ≤ (combat_encounter p3 d3 fuel3 acts3 rng3).p.hp ∧
      (combat_encounter p3 d3 fuel3 acts3 rng3).p.hp ≤ 3) ∧
    (0 ≤ (play_mission_sequence fuel missions (Player.init role) acts rng).p.hp ∧
      (play_mission_sequence fuel missions (Player.init role) acts rng).p.hp ≤ 3 ∧
      summary_hp (play_mission_sequence fuel missions (Player.init role) acts rng).p =
        (play_mission_sequence fuel missions (Player.init role) acts rng).p.hp) := by
  have hc := HpInv_combat_encounter p3 d3 fuel3 acts3 rng3 ⟨h3b, h3c, fun _ => h3d⟩
  have hinit : HpInv (Player.init role) := by
    refine ⟨?_, ?_, fun _ => ?_⟩ <;> simp [Player.init, HpInv]
  have hseq := HpInv_play_mission_sequence fuel missions (Player.init role) acts rng
    rfl hinit
  refine ⟨by simp, ?_, ⟨hc.1, hc.2.1⟩, hseq.1, hseq.2.1, ?_⟩
  · simp only [take_damage_alive]
    rw [if_pos (by omega)]
  · have h0 := hseq.1
    unfold summary_hp
    omega

theorem C10_witness :
    (({ Player.init Role.Soldier with hp := 1 } : Player).hp ≤ 1 ∧
      (Player.init Role.Engineer).alive = true ∧ 0 ≤ (Player.init Role.Engineer).hp ∧
      (Player.init Role.Engineer).hp ≤ 3 ∧ 1 ≤ (Player.init Role.Engineer).hp) ∧
    ((Player.init Role.Medic).take_damage 1).hp = (Player.init Role.Medic).hp - 1 ∧
    (({ Player.init Role.Soldier with hp := 1 } : Player).take_damage 1).alive = false ∧
    (0 ≤ (combat_encounter (Player.init Role.Engineer) 2 2 [1] [50, 20, 99]).p.hp ∧
      (combat_encounter (Player.init Role.Engineer) 2 2 [1] [50, 20, 99]).p.hp ≤ 3) ∧
    (0 ≤ (play_mission_sequence 1 1 (Player.init Role.Sniper) [1] [2]).p.hp ∧
      (play_mission_sequence 1 1 (Player.init Role.Sniper) [1] [2]).p.hp ≤ 3 ∧
      summary_hp (play_mission_sequence 1 1 (Player.init Role.Sniper) [1] [2]).p =
        (play_mission_sequence 1 1 (Player.init Role.Sniper) [1] [2]).p.hp) :=
  ⟨by decide,
    (C10_hp_never_negative (Player.init Role.Medic)
      { Player.init Role.Soldier with hp := 1 } (Player.init Role.Engineer)
      Role.Sniper 1 1 2 [1] [2] [1] [50, 20, 99] 2
      (by decide) (by decide) (by decide) (by decide) (by decide)).1,
    (C10_hp_never_negative (Player.init Role.Medic)
      { Player.init Role.Soldier with hp := 1 } (Player.init Role.Engineer)
      Role.Sniper 1 1 2 [1] [2] [1] [50, 20, 99] 2
      (by decide) (by decide) (by decide) (by decide) (by decide)).2⟩

end Game
